import Mathlib

/-!
Shallow embedding of the DiaWell CBC + Biochemistry metabolic-health engine
(`src/app.py`) and verification of the specification's claims about it.

Modelling conventions:
* Python `float` values are idealised as exact rationals (`ℚ`) where the code
  performs only field arithmetic, and as reals (`ℝ`) in the metabolic block,
  whose formulas use `math.log`, `math.log10` and `math.sqrt`.
* A Python variable that may hold `None` is an `Option`.
* A Python computation that can raise (`TypeError` on arithmetic with `None`,
  `ZeroDivisionError` on float division by zero) is an `Except Unit` value;
  `.error ()` marks the raise.
* Python's `round(x, 0)` (banker's rounding to an integral float) is
  `pyRound0`.
-/

namespace DiaWell

/-- Python `round(x, 0)`: round to nearest integer, ties to even
(banker's rounding), returned as a number. -/
def pyRound0 (x : ℚ) : ℚ :=
  let n : ℤ := ⌊x⌋
  if x - n < 1 / 2 then n
  else if x - n > 1 / 2 then n + 1
  else if n % 2 = 0 then n else n + 1

/-- `safe_div` from `app.py`: returns `None` when the denominator is `None`
or equal to `0`; otherwise performs the division `a / b`, which raises
(`TypeError`) when the numerator is `None`. -/
def safe_div (a b : Option ℚ) : Except Unit (Option ℚ) :=
  match b with
  | none => .ok none
  | some y =>
    if y = 0 then .ok none
    else
      match a with
      | none => .error ()
      | some x => .ok (some (x / y))

/-- Python multiplication of two possibly-`None` operands: raises
(`TypeError`) when either operand is `None`. -/
def pyMul (a b : Option ℚ) : Except Unit ℚ :=
  match a, b with
  | some x, some y => .ok (x * y)
  | _, _ => .error ()

/-- Python truthiness of a possibly-`None` float: `None` and `0.0` are falsy. -/
def truthy : Option ℚ → Bool
  | none => false
  | some x => decide (x ≠ 0)

/-- `severity_to_text` from `app.py`: maps an optional severity ordinal to its
textual label, direction-aware; unknown ordinals and `None` map to `"NA"`. -/
def severity_to_text (sev : Option ℕ) (direction : String) : String :=
  match sev with
  | none => "NA"
  | some s =>
    if direction = "down" then
      if s = 0 then "Normal"
      else if s = 1 then "Mild ↓"
      else if s = 2 then "Moderate ↓"
      else if s = 3 then "Severe ↓"
      else "NA"
    else
      if s = 0 then "Normal"
      else if s = 1 then "Mild ↑"
      else if s = 2 then "Moderate ↑"
      else if s = 3 then "Severe ↑"
      else "NA"

/-- `domain_label` from `app.py`: converts a 0-25 domain score to a
qualitative label. -/
def domain_label (score : ℚ) : String :=
  if score < 6 then "Near optimal"
  else if score < 13 then "Mild"
  else if score < 19 then "Moderate"
  else "Severe"

/-- `overall_risk_label` from `app.py`: maps the 0-100 total score to the
overall risk category. -/
def overall_risk_label (total_score : ℚ) : String :=
  if total_score < 25 then "Low risk"
  else if total_score < 40 then "Mild risk"
  else if total_score < 60 then "Moderate risk"
  else "High risk - intensive optimization needed"

/-! ### Severity classifiers of the inflammation block (`calc_inflammation_block`) -/

/-- Numeric core of `sev_nlr` (the branch taken when the value is present). -/
def sev_nlr_val (x : ℚ) : ℕ :=
  if x ≤ 2.0 then 0 else if x ≤ 3.0 then 1 else if x ≤ 5.0 then 2 else 3

/-- `sev_nlr` from `app.py` (`None` maps to `None`). -/
def sev_nlr (x : Option ℚ) : Option ℕ := x.map sev_nlr_val

/-- Numeric core of `sev_plr`. -/
def sev_plr_val (x : ℚ) : ℕ :=
  if x < 120 then 0 else if x < 150 then 1 else if x < 200 then 2 else 3

/-- `sev_plr` from `app.py`. -/
def sev_plr (x : Option ℚ) : Option ℕ := x.map sev_plr_val

/-- Numeric core of `sev_sii`. -/
def sev_sii_val (x : ℚ) : ℕ :=
  if x < 300 then 0 else if x < 600 then 1 else if x < 900 then 2 else 3

/-- `sev_sii` from `app.py`. -/
def sev_sii (x : Option ℚ) : Option ℕ := x.map sev_sii_val

/-- Numeric core of `sev_siri`. -/
def sev_siri_val (x : ℚ) : ℕ :=
  if x < 0.8 then 0 else if x < 1.5 then 1 else if x < 2.5 then 2 else 3

/-- `sev_siri` from `app.py`. -/
def sev_siri (x : Option ℚ) : Option ℕ := x.map sev_siri_val

/-- Numeric core of `sev_aisi`. -/
def sev_aisi_val (x : ℚ) : ℕ :=
  if x < 150 then 0 else if x < 300 then 1 else if x < 600 then 2 else 3

/-- `sev_aisi` from `app.py`. -/
def sev_aisi (x : Option ℚ) : Option ℕ := x.map sev_aisi_val

/-! ### Severity classifiers of the oxidative block (`calc_oxidative_block`) -/

/-- Numeric core of `sev_rdw`. -/
def sev_rdw_val (x : ℚ) : ℕ :=
  if x < 13.0 then 0 else if x < 14.0 then 1 else if x < 15.0 then 2 else 3

/-- `sev_rdw` from `app.py`. -/
def sev_rdw (x : Option ℚ) : Option ℕ := x.map sev_rdw_val

/-- Numeric core of `sev_rpr`. -/
def sev_rpr_val (x : ℚ) : ℕ :=
  if x < 0.07 then 0 else if x < 0.10 then 1 else if x < 0.15 then 2 else 3

/-- `sev_rpr` from `app.py`. -/
def sev_rpr (x : Option ℚ) : Option ℕ := x.map sev_rpr_val

/-- Numeric core of `sev_rar`. -/
def sev_rar_val (x : ℚ) : ℕ :=
  if x < 3.0 then 0 else if x < 4.0 then 1 else if x < 5.0 then 2 else 3

/-- `sev_rar` from `app.py`. -/
def sev_rar (x : Option ℚ) : Option ℕ := x.map sev_rar_val

/-- Numeric core of `sev_hbrdw` (lower is worse). -/
def sev_hbrdw_val (x : ℚ) : ℕ :=
  if x ≥ 1.35 then 0 else if x ≥ 1.20 then 1 else if x ≥ 1.00 then 2 else 3

/-- `sev_hbrdw` from `app.py`. -/
def sev_hbrdw (x : Option ℚ) : Option ℕ := x.map sev_hbrdw_val

/-- Numeric core of `sev_mcvhb`. -/
def sev_mcvhb_val (x : ℚ) : ℕ :=
  if x < 7.0 then 0 else if x < 8.0 then 1 else if x < 9.0 then 2 else 3

/-- `sev_mcvhb` from `app.py`. -/
def sev_mcvhb (x : Option ℚ) : Option ℕ := x.map sev_mcvhb_val

/-- Numeric core of `sev_hpr`. -/
def sev_hpr_val (x : ℚ) : ℕ :=
  if x < 0.07 then 0 else if x < 0.09 then 1 else if x < 0.12 then 2 else 3

/-- `sev_hpr` from `app.py`. -/
def sev_hpr (x : Option ℚ) : Option ℕ := x.map sev_hpr_val

/-! ### Severity classifiers of the endothelial block (`calc_endothelial_block`) -/

/-- Numeric core of `sev_mhr`. -/
def sev_mhr_val (x : ℚ) : ℕ :=
  if x < 0.010 then 0 else if x < 0.020 then 1 else if x < 0.030 then 2 else 3

/-- `sev_mhr` from `app.py`. -/
def sev_mhr (x : Option ℚ) : Option ℕ := x.map sev_mhr_val

/-- Numeric core of `sev_nhr`. -/
def sev_nhr_val (x : ℚ) : ℕ :=
  if x < 0.10 then 0 else if x < 0.20 then 1 else if x < 0.30 then 2 else 3

/-- `sev_nhr` from `app.py`. -/
def sev_nhr (x : Option ℚ) : Option ℕ := x.map sev_nhr_val

/-! ### Severity classifiers of the metabolic block (`calc_metabolic_block`).
These classify real-valued indices (TyG, METS-IR, AIP, HSI, FIB-4, eGDR). -/

/-- Numeric core of `sev_tyg`. -/
noncomputable def sev_tyg_val (x : ℝ) : ℕ :=
  if x < 8.5 then 0 else if x < 8.9 then 1 else if x < 9.5 then 2 else 3

/-- `sev_tyg` from `app.py`. -/
noncomputable def sev_tyg (x : Option ℝ) : Option ℕ := x.map sev_tyg_val

/-- Numeric core of `sev_mets`. -/
noncomputable def sev_mets_val (x : ℝ) : ℕ :=
  if x < 35 then 0 else if x < 40 then 1 else if x < 45 then 2 else 3

/-- `sev_mets` from `app.py`. -/
noncomputable def sev_mets (x : Option ℝ) : Option ℕ := x.map sev_mets_val

/-- Numeric core of `sev_aip`: low (`0`) below `0.11`, intermediate (`1`) up
to `0.21`, and otherwise directly `3` ("high - counted as severe"). -/
noncomputable def sev_aip_val (x : ℝ) : ℕ :=
  if x < 0.11 then 0 else if x ≤ 0.21 then 1 else 3

/-- `sev_aip` from `app.py`. -/
noncomputable def sev_aip (x : Option ℝ) : Option ℕ := x.map sev_aip_val

/-- Numeric core of `sev_hsi`. -/
noncomputable def sev_hsi_val (x : ℝ) : ℕ :=
  if x < 30 then 0 else if x < 35 then 1 else if x < 40 then 2 else 3

/-- `sev_hsi` from `app.py`. -/
noncomputable def sev_hsi (x : Option ℝ) : Option ℕ := x.map sev_hsi_val

/-- Numeric core of `sev_fib4`. -/
noncomputable def sev_fib4_val (x : ℝ) : ℕ :=
  if x < 1.3 then 0 else if x < 2.0 then 1 else if x < 2.67 then 2 else 3

/-- `sev_fib4` from `app.py`. -/
noncomputable def sev_fib4 (x : Option ℝ) : Option ℕ := x.map sev_fib4_val

/-- Numeric core of `sev_egdr` (higher eGDR is better; lower is worse). -/
noncomputable def sev_egdr_val (x : ℝ) : ℕ :=
  if x > 8.0 then 0 else if x > 6.0 then 1 else if x > 4.0 then 2 else 3

/-- `sev_egdr` from `app.py`. -/
noncomputable def sev_egdr (x : Option ℝ) : Option ℕ := x.map sev_egdr_val

/-! ### The inflammation block -/

/-- The dictionary returned by `calc_inflammation_block`. -/
structure InflamResult where
  nlr : Option ℚ
  plr : Option ℚ
  sii : Option ℚ
  siri : Option ℚ
  aisi : Option ℚ
  s_nlr : Option ℕ
  s_plr : Option ℕ
  s_sii : Option ℕ
  s_siri : Option ℕ
  s_aisi : Option ℕ
  inflam_sev : ℚ
  inflam_score : ℚ

/-- The list of present member severities of the inflammation domain,
as gathered by `calc_inflammation_block`. -/
def inflamSevs (r : InflamResult) : List ℕ :=
  [r.s_nlr, r.s_plr, r.s_sii, r.s_siri, r.s_aisi].filterMap id

/-- Severity classification, aggregation and dictionary construction at the
end of `calc_inflammation_block`, as a function of the five computed indices. -/
def mkInflamResult (nlr plr sii siri aisi : Option ℚ) : InflamResult :=
  let s_nlr := sev_nlr nlr
  let s_plr := sev_plr plr
  let s_sii := sev_sii sii
  let s_siri := sev_siri siri
  let s_aisi := sev_aisi aisi
  let severities := [s_nlr, s_plr, s_sii, s_siri, s_aisi].filterMap id
  let inflam_sev : ℚ :=
    if severities = [] then 0 else (severities.sum : ℚ) / severities.length
  { nlr, plr, sii, siri, aisi, s_nlr, s_plr, s_sii, s_siri, s_aisi,
    inflam_sev, inflam_score := pyRound0 (25 * (inflam_sev / 3)) }

/-- The SII conditional expression of `calc_inflammation_block`:
`safe_div(plate * neut, lymph) if lymph else None`. -/
def siiE (plate neut lymph : Option ℚ) : Except Unit (Option ℚ) :=
  if truthy lymph then
    match pyMul plate neut with
    | .error u => .error u
    | .ok pn => safe_div (some pn) lymph
  else .ok none

/-- The SIRI conditional expression of `calc_inflammation_block`:
`safe_div(neut * mono, lymph) if lymph else None`. -/
def siriE (neut mono lymph : Option ℚ) : Except Unit (Option ℚ) :=
  if truthy lymph then
    match pyMul neut mono with
    | .error u => .error u
    | .ok nm => safe_div (some nm) lymph
  else .ok none

/-- The AISI expression of `calc_inflammation_block`:
`neut * lymph * mono if all(x is not None for x in [neut, lymph, mono])
else None` (the `None` check precedes the multiplication, so it never
raises). -/
def aisiV (neut lymph mono : Option ℚ) : Option ℚ :=
  match neut, lymph, mono with
  | some a, some b, some c => some (a * b * c)
  | _, _, _ => none

/-- `calc_inflammation_block` from `app.py`. The conditional expressions for
SII and SIRI first test the truthiness of `lymph`; multiplication or division
involving a `None` operand raises. -/
def calc_inflammation_block (neut lymph mono plate : Option ℚ) :
    Except Unit InflamResult := do
  let nlr ← safe_div neut lymph
  let plr ← safe_div plate lymph
  let sii ← siiE plate neut lymph
  let siri ← siriE neut mono lymph
  pure (mkInflamResult nlr plr sii siri (aisiV neut lymph mono))

/-! ### The oxidative block -/

/-- The dictionary returned by `calc_oxidative_block`. -/
structure OxidResult where
  rdw : Option ℚ
  rpr : Option ℚ
  rar : Option ℚ
  hbrdw : Option ℚ
  mcvhb : Option ℚ
  hpr : Option ℚ
  s_rdw : Option ℕ
  s_rpr : Option ℕ
  s_rar : Option ℕ
  s_hbrdw : Option ℕ
  s_mcvhb : Option ℕ
  s_hpr : Option ℕ
  oxid_sev : ℚ
  oxid_score : ℚ

/-- The list of present member severities of the oxidative domain. -/
def oxidSevs (r : OxidResult) : List ℕ :=
  [r.s_rdw, r.s_rpr, r.s_rar, r.s_hbrdw, r.s_mcvhb, r.s_hpr].filterMap id

/-- Severity classification, aggregation and dictionary construction at the
end of `calc_oxidative_block`. -/
def mkOxidResult (rdw rpr rar hbrdw mcvhb hpr : Option ℚ) : OxidResult :=
  let s_rdw := sev_rdw rdw
  let s_rpr := sev_rpr rpr
  let s_rar := sev_rar rar
  let s_hbrdw := sev_hbrdw hbrdw
  let s_mcvhb := sev_mcvhb mcvhb
  let s_hpr := sev_hpr hpr
  let severities := [s_rdw, s_rpr, s_rar, s_hbrdw, s_mcvhb, s_hpr].filterMap id
  let oxid_sev : ℚ :=
    if severities = [] then 0 else (severities.sum : ℚ) / severities.length
  { rdw, rpr, rar, hbrdw, mcvhb, hpr, s_rdw, s_rpr, s_rar, s_hbrdw, s_mcvhb,
    s_hpr, oxid_sev, oxid_score := pyRound0 (25 * (oxid_sev / 3)) }

/-- `calc_oxidative_block` from `app.py`. -/
def calc_oxidative_block (rdw plate albumin hb mcv : Option ℚ) :
    Except Unit OxidResult := do
  let rpr ← safe_div rdw plate
  let rar ← safe_div rdw albumin
  let hbrdw ← safe_div hb rdw
  let mcvhb ← safe_div mcv hb
  let hpr ← safe_div hb plate
  pure (mkOxidResult rdw rpr rar hbrdw mcvhb hpr)

/-! ### The endothelial block -/

/-- The dictionary returned by `calc_endothelial_block`. -/
structure EndoResult where
  mhr : Option ℚ
  nhr : Option ℚ
  s_mhr : Option ℕ
  s_nhr : Option ℕ
  endo_sev : ℚ
  endo_score : ℚ

/-- The list of present member severities of the endothelial domain. -/
def endoSevs (r : EndoResult) : List ℕ :=
  [r.s_mhr, r.s_nhr].filterMap id

/-- Severity classification, aggregation and dictionary construction at the
end of `calc_endothelial_block`. -/
def mkEndoResult (mhr nhr : Option ℚ) : EndoResult :=
  let s_mhr := sev_mhr mhr
  let s_nhr := sev_nhr nhr
  let severities := [s_mhr, s_nhr].filterMap id
  let endo_sev : ℚ :=
    if severities = [] then 0 else (severities.sum : ℚ) / severities.length
  { mhr, nhr, s_mhr, s_nhr, endo_sev,
    endo_score := pyRound0 (25 * (endo_sev / 3)) }

/-- `calc_endothelial_block` from `app.py`. -/
def calc_endothelial_block (mono neut hdl : Option ℚ) :
    Except Unit EndoResult := do
  let mhr ← safe_div mono hdl
  let nhr ← safe_div neut hdl
  pure (mkEndoResult mhr nhr)

/-! ### The metabolic block

Each index of `calc_metabolic_block` is its own guarded computation.
Comparing `None` against `0` raises; Python's `and` is short-circuiting, so a
later operand of a guard is not even compared when an earlier one is false. -/

/-- TyG computation of `calc_metabolic_block`:
`tyg = log((glu * tg) / 2)` when `glu > 0 and tg > 0`, else `None`. -/
noncomputable def tygE (glu tg : Option ℝ) : Except Unit (Option ℝ) :=
  match glu with
  | none => .error ()
  | some g =>
    if g > 0 then
      match tg with
      | none => .error ()
      | some t => if t > 0 then .ok (some (Real.log ((g * t) / 2))) else .ok none
    else .ok none

/-- METS-IR computation of `calc_metabolic_block`:
`log(2*glu + tg) * bmi / log(hdl)` when `glu > 0 and tg > 0 and hdl > 0 and
bmi > 0`, else `None`.  Float division by `log(hdl) = 0` (i.e. `hdl = 1`)
raises `ZeroDivisionError`. -/
noncomputable def metsE (glu tg hdl bmi : Option ℝ) : Except Unit (Option ℝ) :=
  match glu with
  | none => .error ()
  | some g =>
    if g > 0 then
      match tg with
      | none => .error ()
      | some t =>
        if t > 0 then
          match hdl with
          | none => .error ()
          | some h =>
            if h > 0 then
              match bmi with
              | none => .error ()
              | some b =>
                if b > 0 then
                  if Real.log h = 0 then .error ()
                  else .ok (some (Real.log (2 * g + t) * b / Real.log h))
                else .ok none
            else .ok none
        else .ok none
    else .ok none

/-- AIP computation of `calc_metabolic_block` (mmol/L version): when
`tg > 0 and hdl > 0`, convert both to mmol/L and, if the converted HDL is
positive, take `log10` of their quotient. -/
noncomputable def aipE (tg hdl : Option ℝ) : Except Unit (Option ℝ) :=
  match tg with
  | none => .error ()
  | some t =>
    if t > 0 then
      match hdl with
      | none => .error ()
      | some h =>
        if h > 0 then
          let tg_mmol := t / 88.5
          let hdl_mmol := h / 38.7
          if hdl_mmol > 0 then .ok (some (Real.logb 10 (tg_mmol / hdl_mmol)))
          else .ok none
        else .ok none
    else .ok none

/-- HSI computation of `calc_metabolic_block`:
`8 * (alt / ast) + bmi`, plus `2` if female, plus `2` if diabetic, when
`ast > 0`; else `None`. -/
noncomputable def hsiE (sex : String) (diabetes : ℤ) (ast alt bmi : Option ℝ) :
    Except Unit (Option ℝ) :=
  match ast with
  | none => .error ()
  | some a =>
    if a > 0 then
      match alt, bmi with
      | some l, some b =>
        .ok (some (8 * (l / a) + b + (if sex = "F" ∨ sex = "f" then 2 else 0) +
          (if diabetes = 1 then 2 else 0)))
      | _, _ => .error ()
    else .ok none

/-- FIB-4 computation of `calc_metabolic_block`:
`(age * ast) / (plate * sqrt(alt))` when `plate > 0 and alt > 0`; else
`None`. -/
noncomputable def fib4E (age ast alt plate : Option ℝ) : Except Unit (Option ℝ) :=
  match plate with
  | none => .error ()
  | some p =>
    if p > 0 then
      match alt with
      | none => .error ()
      | some l =>
        if l > 0 then
          match age, ast with
          | some ag, some a => .ok (some ((ag * a) / (p * Real.sqrt l)))
          | _, _ => .error ()
        else .ok none
    else .ok none

/-- eGDR computation of `calc_metabolic_block`, performed unconditionally:
`21.158 - 0.09*waist - 3.407*(1 if htn else 0) - 0.551*hba1c`. -/
noncomputable def egdrE (waist : Option ℝ) (htn : Bool) (hba1c : Option ℝ) :
    Except Unit ℝ :=
  match waist, hba1c with
  | some w, some h1 =>
    .ok (21.158 - 0.09 * w - 3.407 * (if htn then 1 else 0) - 0.551 * h1)
  | _, _ => .error ()

/-- The dictionary returned by `calc_metabolic_block`.  `egdr` is always a
number (its formula has no guard), hence not an `Option`. -/
structure MetabResult where
  tyg : Option ℝ
  mets_ir : Option ℝ
  aip : Option ℝ
  hsi : Option ℝ
  fib4 : Option ℝ
  egdr : ℝ
  s_tyg : Option ℕ
  s_mets : Option ℕ
  s_aip : Option ℕ
  s_hsi : Option ℕ
  s_fib4 : Option ℕ
  s_egdr : Option ℕ
  metab_sev : ℚ
  metab_score : ℚ

/-- The list of present member severities of the metabolic domain. -/
def metabSevs (r : MetabResult) : List ℕ :=
  [r.s_tyg, r.s_mets, r.s_aip, r.s_hsi, r.s_fib4, r.s_egdr].filterMap id

/-- Severity classification, aggregation and dictionary construction at the
end of `calc_metabolic_block`. -/
noncomputable def mkMetabResult (tyg mets_ir aip hsi fib4 : Option ℝ) (egdr : ℝ) :
    MetabResult :=
  let s_tyg := sev_tyg tyg
  let s_mets := sev_mets mets_ir
  let s_aip := sev_aip aip
  let s_hsi := sev_hsi hsi
  let s_fib4 := sev_fib4 fib4
  let s_egdr := sev_egdr (some egdr)
  let severities := [s_tyg, s_mets, s_aip, s_hsi, s_fib4, s_egdr].filterMap id
  let metab_sev : ℚ :=
    if severities = [] then 0 else (severities.sum : ℚ) / severities.length
  { tyg, mets_ir, aip, hsi, fib4, egdr, s_tyg, s_mets, s_aip, s_hsi, s_fib4,
    s_egdr, metab_sev, metab_score := pyRound0 (25 * (metab_sev / 3)) }

/-- `calc_metabolic_block` from `app.py` (argument order as in the source). -/
noncomputable def calc_metabolic_block (age : Option ℝ) (sex : String)
    (diabetes : ℤ) (glu tg hdl ast alt hba1c waist bmi : Option ℝ) (htn : Bool)
    (plate : Option ℝ) : Except Unit MetabResult := do
  let tyg ← tygE glu tg
  let mets_ir ← metsE glu tg hdl bmi
  let aip ← aipE tg hdl
  let hsi ← hsiE sex diabetes ast alt bmi
  let fib4 ← fib4E age ast alt plate
  let egdr ← egdrE waist htn hba1c
  pure (mkMetabResult tyg mets_ir aip hsi fib4 egdr)

/-! ### Risk synthesis (from `main`) -/

/-- The total score computed in `main`: the sum of the four domain scores. -/
def total_score (rI : InflamResult) (rO : OxidResult) (rE : EndoResult)
    (rM : MetabResult) : ℚ :=
  rI.inflam_score + rO.oxid_score + rE.endo_score + rM.metab_score

/-- Modelled from the spec: the spec's claimed domain-score rounding to one
decimal place (`round(value, 1)`, banker's rounding at the first decimal),
used only to compare the specified aggregation against the code's. -/
def specRound1 (x : ℚ) : ℚ := pyRound0 (10 * x) / 10

/-- A best-effort run marker: `true` exactly when the computation returned a
result instead of raising. -/
def exceptOk {α : Type} : Except Unit α → Bool
  | .ok _ => true
  | .error _ => false

/-! ### Concrete reference runs (used to witness the hypotheses of the
claim theorems) -/

/-- Result of the inflammation block at neut 5, lymph 2, mono 0.1, plate 100:
only NLR is mildly elevated (ordinal 1), the other four members are normal. -/
def RI1 : InflamResult :=
  { nlr := some (5 / 2), plr := some 50, sii := some 250, siri := some (1 / 4),
    aisi := some 1, s_nlr := some 1, s_plr := some 0, s_sii := some 0,
    s_siri := some 0, s_aisi := some 0, inflam_sev := 1 / 5, inflam_score := 2 }

/-- Result of the inflammation block at neut 1, lymph 0, mono `None`,
plate 1: every member index is absent. -/
def RI0 : InflamResult :=
  { nlr := none, plr := none, sii := none, siri := none, aisi := none,
    s_nlr := none, s_plr := none, s_sii := none, s_siri := none,
    s_aisi := none, inflam_sev := 0, inflam_score := 0 }

/-- Result of the oxidative block at rdw 13, plate 200, albumin 3.4, hb 13,
mcv 96. -/
def RO1 : OxidResult :=
  { rdw := some 13, rpr := some (13 / 200), rar := some (65 / 17),
    hbrdw := some 1, mcvhb := some (96 / 13), hpr := some (13 / 200),
    s_rdw := some 1, s_rpr := some 0, s_rar := some 1, s_hbrdw := some 2,
    s_mcvhb := some 1, s_hpr := some 0, oxid_sev := 5 / 6, oxid_score := 7 }

/-- Result of the oxidative block at rdw `None`, plate 0, albumin 0, hb 0,
mcv 1: every member index is absent. -/
def RO0 : OxidResult :=
  { rdw := none, rpr := none, rar := none, hbrdw := none, mcvhb := none,
    hpr := none, s_rdw := none, s_rpr := none, s_rar := none, s_hbrdw := none,
    s_mcvhb := none, s_hpr := none, oxid_sev := 0, oxid_score := 0 }

/-- Result of the endothelial block at mono 0.5, neut 5, hdl 33. -/
def RE1 : EndoResult :=
  { mhr := some (1 / 66), nhr := some (5 / 33), s_mhr := some 1,
    s_nhr := some 1, endo_sev := 1, endo_score := 8 }

/-- Result of the endothelial block at mono 1, neut 1, hdl 0: both member
indices are absent. -/
def RE0 : EndoResult :=
  { mhr := none, nhr := none, s_mhr := none, s_nhr := none, endo_sev := 0,
    endo_score := 0 }

/-- Result of the metabolic block at glu 0, tg 0, hdl 0, ast 0, alt 0,
hba1c 8, waist 100, bmi 26, htn true, plate 200: every guarded index is
absent and only eGDR (4.343, ordinal 2) is present. -/
noncomputable def RM1 : MetabResult :=
  { tyg := none, mets_ir := none, aip := none, hsi := none, fib4 := none,
    egdr := 4.343, s_tyg := none, s_mets := none, s_aip := none,
    s_hsi := none, s_fib4 := none, s_egdr := some 2, metab_sev := 2,
    metab_score := 17 }

/-! ## Supporting lemmas -/

theorem bind_ok_inv {α β : Type} {e : Except Unit α} {f : α → Except Unit β}
    {r : β} (h : e >>= f = .ok r) : ∃ a, e = .ok a ∧ f a = .ok r := by
  cases e with
  | ok a => exact ⟨a, rfl, h⟩
  | error u => exact Except.noConfusion h

theorem safe_div_some (x y : ℚ) :
    safe_div (some x) (some y) = .ok (if y = 0 then none else some (x / y)) := by
  simp only [safe_div]
  split_ifs <;> rfl

theorem calcI_ok {neut lymph mono plate : Option ℚ} {r : InflamResult}
    (h : calc_inflammation_block neut lymph mono plate = .ok r) :
    ∃ a b c d e, r = mkInflamResult a b c d e := by
  unfold calc_inflammation_block at h
  obtain ⟨v1, -, h⟩ := bind_ok_inv h
  obtain ⟨v2, -, h⟩ := bind_ok_inv h
  obtain ⟨v3, -, h⟩ := bind_ok_inv h
  obtain ⟨v4, -, h⟩ := bind_ok_inv h
  exact ⟨v1, v2, v3, v4, _, (Except.ok.inj h).symm⟩

theorem calcO_ok {rdw plate albumin hb mcv : Option ℚ} {r : OxidResult}
    (h : calc_oxidative_block rdw plate albumin hb mcv = .ok r) :
    ∃ b c d e f, r = mkOxidResult rdw b c d e f := by
  unfold calc_oxidative_block at h
  obtain ⟨v1, -, h⟩ := bind_ok_inv h
  obtain ⟨v2, -, h⟩ := bind_ok_inv h
  obtain ⟨v3, -, h⟩ := bind_ok_inv h
  obtain ⟨v4, -, h⟩ := bind_ok_inv h
  obtain ⟨v5, -, h⟩ := bind_ok_inv h
  exact ⟨v1, v2, v3, v4, v5, (Except.ok.inj h).symm⟩

theorem calcE_ok {mono neut hdl : Option ℚ} {r : EndoResult}
    (h : calc_endothelial_block mono neut hdl = .ok r) :
    ∃ a b, r = mkEndoResult a b := by
  unfold calc_endothelial_block at h
  obtain ⟨v1, -, h⟩ := bind_ok_inv h
  obtain ⟨v2, -, h⟩ := bind_ok_inv h
  exact ⟨v1, v2, (Except.ok.inj h).symm⟩

theorem calcM_ok {age : Option ℝ} {sex : String} {diabetes : ℤ}
    {glu tg hdl ast alt hba1c waist bmi : Option ℝ} {htn : Bool}
    {plate : Option ℝ} {r : MetabResult}
    (h : calc_metabolic_block age sex diabetes glu tg hdl ast alt hba1c waist
      bmi htn plate = .ok r) :
    ∃ a b c d e g, r = mkMetabResult a b c d e g ∧
      egdrE waist htn hba1c = .ok g := by
  unfold calc_metabolic_block at h
  obtain ⟨v1, -, h⟩ := bind_ok_inv h
  obtain ⟨v2, -, h⟩ := bind_ok_inv h
  obtain ⟨v3, -, h⟩ := bind_ok_inv h
  obtain ⟨v4, -, h⟩ := bind_ok_inv h
  obtain ⟨v5, -, h⟩ := bind_ok_inv h
  obtain ⟨v6, h6, h⟩ := bind_ok_inv h
  exact ⟨v1, v2, v3, v4, v5, v6, (Except.ok.inj h).symm, h6⟩

theorem calcI_some_ok (n l m p : ℚ) :
    exceptOk (calc_inflammation_block (some n) (some l) (some m) (some p)) =
      true := by
  by_cases hl : l = 0 <;>
    simp [calc_inflammation_block, safe_div, siiE, siriE, aisiV, hl, pyMul,
      truthy, bind, Except.bind, pure, Except.pure, exceptOk]

theorem calcO_some_ok (rdw plate albumin hb mcv : ℚ) :
    exceptOk (calc_oxidative_block (some rdw) (some plate) (some albumin)
      (some hb) (some mcv)) = true := by
  simp only [calc_oxidative_block, safe_div_some, bind, Except.bind, pure,
    Except.pure, exceptOk]

theorem calcE_some_ok (mono neut hdl : ℚ) :
    exceptOk (calc_endothelial_block (some mono) (some neut) (some hdl)) =
      true := by
  simp only [calc_endothelial_block, safe_div_some, bind, Except.bind, pure,
    Except.pure, exceptOk]

theorem tygE_some_ok (g t : ℝ) : ∃ v, tygE (some g) (some t) = .ok v := by
  simp only [tygE]
  split_ifs <;> exact ⟨_, rfl⟩

theorem metsE_some_ok (g t h b : ℝ) (hne : h ≠ 1) :
    ∃ v, metsE (some g) (some t) (some h) (some b) = .ok v := by
  simp only [metsE]
  split_ifs with hg ht hh hb hlog
  case pos =>
    exfalso
    rcases Real.log_eq_zero.mp hlog with h0 | h0 | h0 <;> simp_all <;> linarith
  all_goals exact ⟨_, rfl⟩

theorem aipE_some_ok (t h : ℝ) : ∃ v, aipE (some t) (some h) = .ok v := by
  simp only [aipE]
  split_ifs <;> exact ⟨_, rfl⟩

theorem hsiE_some_ok (sex : String) (diabetes : ℤ) (a l b : ℝ) :
    ∃ v, hsiE sex diabetes (some a) (some l) (some b) = .ok v := by
  simp only [hsiE]
  split_ifs <;> exact ⟨_, rfl⟩

theorem fib4E_some_ok (ag a l p : ℝ) :
    ∃ v, fib4E (some ag) (some a) (some l) (some p) = .ok v := by
  simp only [fib4E]
  split_ifs <;> exact ⟨_, rfl⟩

theorem calcM_some_ok (age : ℝ) (sex : String) (diabetes : ℤ)
    (g t h a l h1c w b : ℝ) (htn : Bool) (p : ℝ) (hne : h ≠ 1) :
    exceptOk (calc_metabolic_block (some age) sex diabetes (some g) (some t)
      (some h) (some a) (some l) (some h1c) (some w) (some b) htn (some p)) =
      true := by
  obtain ⟨v1, e1⟩ := tygE_some_ok g t
  obtain ⟨v2, e2⟩ := metsE_some_ok g t h b hne
  obtain ⟨v3, e3⟩ := aipE_some_ok t h
  obtain ⟨v4, e4⟩ := hsiE_some_ok sex diabetes a l b
  obtain ⟨v5, e5⟩ := fib4E_some_ok age a l p
  simp [calc_metabolic_block, e1, e2, e3, e4, e5, egdrE, bind, Except.bind,
    pure, Except.pure, exceptOk]

theorem pyRound0_bounds {x : ℚ} (h0 : 0 ≤ x) (h25 : x ≤ 25) :
    0 ≤ pyRound0 x ∧ pyRound0 x ≤ 25 := by
  simp only [pyRound0]
  have hfl : ((⌊x⌋ : ℤ) : ℚ) ≤ x := Int.floor_le x
  have hfn : (0 : ℤ) ≤ ⌊x⌋ := Int.floor_nonneg.mpr h0
  have hcast : (0 : ℚ) ≤ ((⌊x⌋ : ℤ) : ℚ) := by exact_mod_cast hfn
  have hup : ∀ hh : ((⌊x⌋ : ℤ) : ℚ) ≤ x - 1 / 2,
      (0 : ℚ) ≤ (⌊x⌋ : ℚ) + 1 ∧ ((⌊x⌋ : ℚ) + 1) ≤ 25 := by
    intro hh
    have h1 : ((⌊x⌋ : ℤ) : ℚ) < 25 := by linarith
    have h2 : (⌊x⌋ : ℤ) < 25 := by exact_mod_cast h1
    have h3 : (⌊x⌋ : ℤ) ≤ 24 := by omega
    have h4 : ((⌊x⌋ : ℤ) : ℚ) ≤ 24 := by exact_mod_cast h3
    exact ⟨by linarith, by linarith⟩
  split_ifs with hA hB hC
  · exact ⟨hcast, by linarith⟩
  · exact hup (by linarith)
  · exact ⟨hcast, by linarith⟩
  · exact hup (by linarith)

theorem list_sum_le_three_mul (L : List ℕ) (h : ∀ s ∈ L, s ≤ 3) :
    (L.sum : ℚ) ≤ 3 * L.length := by
  induction L with
  | nil => simp
  | cons a t ih =>
    have ha : (a : ℚ) ≤ 3 := by exact_mod_cast h a (by simp)
    have iht := ih (fun s hs => h s (by simp [hs]))
    simp only [List.sum_cons, List.length_cons]
    push_cast
    push_cast at iht
    linarith

theorem sevmean_bounds (L : List ℕ) (h : ∀ s ∈ L, s ≤ 3) :
    0 ≤ (if L = [] then (0 : ℚ) else (L.sum : ℚ) / L.length) ∧
      (if L = [] then (0 : ℚ) else (L.sum : ℚ) / L.length) ≤ 3 := by
  split_ifs with hL
  · norm_num
  · have hlen : (0 : ℚ) < L.length := by
      have := List.length_pos.mpr hL
      exact_mod_cast this
    constructor
    · positivity
    · rw [div_le_iff₀ hlen]
      linarith [list_sum_le_three_mul L h]

theorem score_bounds (L : List ℕ) (h : ∀ s ∈ L, s ≤ 3) :
    0 ≤ pyRound0
        (25 * ((if L = [] then (0 : ℚ) else (L.sum : ℚ) / L.length) / 3)) ∧
      pyRound0
        (25 * ((if L = [] then (0 : ℚ) else (L.sum : ℚ) / L.length) / 3)) ≤
        25 := by
  obtain ⟨hm0, hm3⟩ := sevmean_bounds L h
  exact pyRound0_bounds (by linarith) (by linarith)

theorem map_le3_q {f : ℚ → ℕ} (hf : ∀ v, f v ≤ 3) {o : Option ℚ} {s : ℕ}
    (h : o.map f = some s) : s ≤ 3 := by
  cases o with
  | none => exact absurd h (by simp)
  | some v =>
    simp only [Option.map_some', Option.some.injEq] at h
    exact h ▸ hf v

theorem map_le3_r {f : ℝ → ℕ} (hf : ∀ v, f v ≤ 3) {o : Option ℝ} {s : ℕ}
    (h : o.map f = some s) : s ≤ 3 := by
  cases o with
  | none => exact absurd h (by simp)
  | some v =>
    simp only [Option.map_some', Option.some.injEq] at h
    exact h ▸ hf v

theorem sev_nlr_val_le (x : ℚ) : sev_nlr_val x ≤ 3 := by
  simp only [sev_nlr_val]; split_ifs <;> norm_num

theorem sev_plr_val_le (x : ℚ) : sev_plr_val x ≤ 3 := by
  simp only [sev_plr_val]; split_ifs <;> norm_num

theorem sev_sii_val_le (x : ℚ) : sev_sii_val x ≤ 3 := by
  simp only [sev_sii_val]; split_ifs <;> norm_num

theorem sev_siri_val_le (x : ℚ) : sev_siri_val x ≤ 3 := by
  simp only [sev_siri_val]; split_ifs <;> norm_num

theorem sev_aisi_val_le (x : ℚ) : sev_aisi_val x ≤ 3 := by
  simp only [sev_aisi_val]; split_ifs <;> norm_num

theorem sev_rdw_val_le (x : ℚ) : sev_rdw_val x ≤ 3 := by
  simp only [sev_rdw_val]; split_ifs <;> norm_num

theorem sev_rpr_val_le (x : ℚ) : sev_rpr_val x ≤ 3 := by
  simp only [sev_rpr_val]; split_ifs <;> norm_num

theorem sev_rar_val_le (x : ℚ) : sev_rar_val x ≤ 3 := by
  simp only [sev_rar_val]; split_ifs <;> norm_num

theorem sev_hbrdw_val_le (x : ℚ) : sev_hbrdw_val x ≤ 3 := by
  simp only [sev_hbrdw_val]; split_ifs <;> norm_num

theorem sev_mcvhb_val_le (x : ℚ) : sev_mcvhb_val x ≤ 3 := by
  simp only [sev_mcvhb_val]; split_ifs <;> norm_num

theorem sev_hpr_val_le (x : ℚ) : sev_hpr_val x ≤ 3 := by
  simp only [sev_hpr_val]; split_ifs <;> norm_num

theorem sev_mhr_val_le (x : ℚ) : sev_mhr_val x ≤ 3 := by
  simp only [sev_mhr_val]; split_ifs <;> norm_num

theorem sev_nhr_val_le (x : ℚ) : sev_nhr_val x ≤ 3 := by
  simp only [sev_nhr_val]; split_ifs <;> norm_num

theorem sev_tyg_val_le (x : ℝ) : sev_tyg_val x ≤ 3 := by
  simp only [sev_tyg_val]; split_ifs <;> norm_num

theorem sev_mets_val_le (x : ℝ) : sev_mets_val x ≤ 3 := by
  simp only [sev_mets_val]; split_ifs <;> norm_num

theorem sev_aip_val_le (x : ℝ) : sev_aip_val x ≤ 3 := by
  simp only [sev_aip_val]; split_ifs <;> norm_num

theorem sev_hsi_val_le (x : ℝ) : sev_hsi_val x ≤ 3 := by
  simp only [sev_hsi_val]; split_ifs <;> norm_num

theorem sev_fib4_val_le (x : ℝ) : sev_fib4_val x ≤ 3 := by
  simp only [sev_fib4_val]; split_ifs <;> norm_num

theorem sev_egdr_val_le (x : ℝ) : sev_egdr_val x ≤ 3 := by
  simp only [sev_egdr_val]; split_ifs <;> norm_num

theorem inflamSevs_mem_le (a b c d e : Option ℚ) :
    ∀ s ∈ [sev_nlr a, sev_plr b, sev_sii c, sev_siri d,
      sev_aisi e].filterMap id, s ≤ 3 := by
  intro s hs
  simp only [List.mem_filterMap, List.mem_cons, List.not_mem_nil, or_false,
    id_eq] at hs
  obtain ⟨o, ho, hos⟩ := hs
  subst hos
  rcases ho with h | h | h | h | h
  · exact map_le3_q sev_nlr_val_le h.symm
  · exact map_le3_q sev_plr_val_le h.symm
  · exact map_le3_q sev_sii_val_le h.symm
  · exact map_le3_q sev_siri_val_le h.symm
  · exact map_le3_q sev_aisi_val_le h.symm

theorem oxidSevs_mem_le (a b c d e f : Option ℚ) :
    ∀ s ∈ [sev_rdw a, sev_rpr b, sev_rar c, sev_hbrdw d, sev_mcvhb e,
      sev_hpr f].filterMap id, s ≤ 3 := by
  intro s hs
  simp only [List.mem_filterMap, List.mem_cons, List.not_mem_nil, or_false,
    id_eq] at hs
  obtain ⟨o, ho, hos⟩ := hs
  subst hos
  rcases ho with h | h | h | h | h | h
  · exact map_le3_q sev_rdw_val_le h.symm
  · exact map_le3_q sev_rpr_val_le h.symm
  · exact map_le3_q sev_rar_val_le h.symm
  · exact map_le3_q sev_hbrdw_val_le h.symm
  · exact map_le3_q sev_mcvhb_val_le h.symm
  · exact map_le3_q sev_hpr_val_le h.symm

theorem endoSevs_mem_le (a b : Option ℚ) :
    ∀ s ∈ [sev_mhr a, sev_nhr b].filterMap id, s ≤ 3 := by
  intro s hs
  simp only [List.mem_filterMap, List.mem_cons, List.not_mem_nil, or_false,
    id_eq] at hs
  obtain ⟨o, ho, hos⟩ := hs
  subst hos
  rcases ho with h | h
  · exact map_le3_q sev_mhr_val_le h.symm
  · exact map_le3_q sev_nhr_val_le h.symm

theorem metabSevs_mem_le (a b c d e : Option ℝ) (g : ℝ) :
    ∀ s ∈ [sev_tyg a, sev_mets b, sev_aip c, sev_hsi d, sev_fib4 e,
      sev_egdr (some g)].filterMap id, s ≤ 3 := by
  intro s hs
  simp only [List.mem_filterMap, List.mem_cons, List.not_mem_nil, or_false,
    id_eq] at hs
  obtain ⟨o, ho, hos⟩ := hs
  subst hos
  rcases ho with h | h | h | h | h | h
  · exact map_le3_r sev_tyg_val_le h.symm
  · exact map_le3_r sev_mets_val_le h.symm
  · exact map_le3_r sev_aip_val_le h.symm
  · exact map_le3_r sev_hsi_val_le h.symm
  · exact map_le3_r sev_fib4_val_le h.symm
  · exact map_le3_r sev_egdr_val_le h.symm

theorem mkInflam_score_bounds (a b c d e : Option ℚ) :
    0 ≤ (mkInflamResult a b c d e).inflam_score ∧
      (mkInflamResult a b c d e).inflam_score ≤ 25 := by
  have := score_bounds _ (inflamSevs_mem_le a b c d e)
  simpa [mkInflamResult] using this

theorem mkOxid_score_bounds (a b c d e f : Option ℚ) :
    0 ≤ (mkOxidResult a b c d e f).oxid_score ∧
      (mkOxidResult a b c d e f).oxid_score ≤ 25 := by
  have := score_bounds _ (oxidSevs_mem_le a b c d e f)
  simpa [mkOxidResult] using this

theorem mkEndo_score_bounds (a b : Option ℚ) :
    0 ≤ (mkEndoResult a b).endo_score ∧ (mkEndoResult a b).endo_score ≤ 25 := by
  have := score_bounds _ (endoSevs_mem_le a b)
  simpa [mkEndoResult] using this

theorem mkMetab_score_bounds (a b c d e : Option ℝ) (g : ℝ) :
    0 ≤ (mkMetabResult a b c d e g).metab_score ∧
      (mkMetabResult a b c d e g).metab_score ≤ 25 := by
  have := score_bounds _ (metabSevs_mem_le a b c d e g)
  simpa [mkMetabResult] using this

theorem eval_inflam_run1 :
    calc_inflammation_block (some 5) (some 2) (some (1 / 10)) (some 100) =
      .ok RI1 := by
  norm_num [calc_inflammation_block, mkInflamResult, safe_div, pyMul, truthy,
    siiE, siriE, aisiV, bind, Except.bind, pure, Except.pure, sev_nlr, sev_plr,
    sev_sii, sev_siri, sev_aisi, sev_nlr_val, sev_plr_val, sev_sii_val,
    sev_siri_val, sev_aisi_val, pyRound0, List.filterMap, RI1,
    if_neg (show ([1, 0, 0, 0, 0] : List ℕ) ≠ [] by simp)]

theorem eval_inflam_run0 :
    calc_inflammation_block (some 1) (some 0) none (some 1) = .ok RI0 := by
  norm_num [calc_inflammation_block, mkInflamResult, safe_div, pyMul, truthy,
    siiE, siriE, aisiV, bind, Except.bind, pure, Except.pure, sev_nlr, sev_plr,
    sev_sii, sev_siri, sev_aisi, pyRound0, List.filterMap, RI0]

theorem eval_oxid_run1 :
    calc_oxidative_block (some 13) (some 200) (some (17 / 5)) (some 13)
      (some 96) = .ok RO1 := by
  norm_num [calc_oxidative_block, mkOxidResult, safe_div, bind, Except.bind,
    pure, Except.pure, sev_rdw, sev_rpr, sev_rar, sev_hbrdw, sev_mcvhb,
    sev_hpr, sev_rdw_val, sev_rpr_val, sev_rar_val, sev_hbrdw_val,
    sev_mcvhb_val, sev_hpr_val, pyRound0, List.filterMap, RO1,
    if_neg (show ([1, 0, 1, 2, 1, 0] : List ℕ) ≠ [] by simp)]

theorem eval_oxid_run0 :
    calc_oxidative_block none (some 0) (some 0) (some 0) (some 1) =
      .ok RO0 := by
  norm_num [calc_oxidative_block, mkOxidResult, safe_div, bind, Except.bind,
    pure, Except.pure, sev_rdw, sev_rpr, sev_rar, sev_hbrdw, sev_mcvhb,
    sev_hpr, pyRound0, List.filterMap, RO0]

theorem eval_endo_run1 :
    calc_endothelial_block (some (1 / 2)) (some 5) (some 33) = .ok RE1 := by
  norm_num [calc_endothelial_block, mkEndoResult, safe_div, bind, Except.bind,
    pure, Except.pure, sev_mhr, sev_nhr, sev_mhr_val, sev_nhr_val, pyRound0,
    List.filterMap, RE1, if_neg (show ([1, 1] : List ℕ) ≠ [] by simp)]

theorem eval_endo_run0 :
    calc_endothelial_block (some 1) (some 1) (some 0) = .ok RE0 := by
  norm_num [calc_endothelial_block, mkEndoResult, safe_div, bind, Except.bind,
    pure, Except.pure, sev_mhr, sev_nhr, pyRound0, List.filterMap, RE0]

theorem eval_metab_run1 :
    calc_metabolic_block (some 40) "M" 0 (some 0) (some 0) (some 0) (some 0)
      (some 0) (some 8) (some 100) (some 26) true (some 200) = .ok RM1 := by
  norm_num [calc_metabolic_block, mkMetabResult, tygE, metsE, aipE, hsiE,
    fib4E, egdrE, bind, Except.bind, pure, Except.pure, sev_tyg, sev_mets,
    sev_aip, sev_hsi, sev_fib4, sev_egdr, sev_egdr_val, pyRound0,
    List.filterMap, RM1, if_neg (show ([2] : List ℕ) ≠ [] by simp)]

/-! ## Additional helper lemmas for the claim theorems -/

theorem mkInflam_empty_score (a b c d e : Option ℚ)
    (hE : [sev_nlr a, sev_plr b, sev_sii c, sev_siri d,
      sev_aisi e].filterMap id = []) :
    (mkInflamResult a b c d e).inflam_score = 0 := by
  simp [mkInflamResult, hE, pyRound0]

theorem mkOxid_empty_score (a b c d e f : Option ℚ)
    (hE : [sev_rdw a, sev_rpr b, sev_rar c, sev_hbrdw d, sev_mcvhb e,
      sev_hpr f].filterMap id = []) :
    (mkOxidResult a b c d e f).oxid_score = 0 := by
  simp [mkOxidResult, hE, pyRound0]

theorem mkEndo_empty_score (a b : Option ℚ)
    (hE : [sev_mhr a, sev_nhr b].filterMap id = []) :
    (mkEndoResult a b).endo_score = 0 := by
  simp [mkEndoResult, hE, pyRound0]

theorem domain_label_zero : domain_label 0 = "Near optimal" := by
  norm_num [domain_label]

/-! ## The claims -/

/-- C2 counterexample: a negative denominator is not guarded.  With
lymphocytes `-2`, NLR is computed as the present value `-5/2` instead of
being absent; moreover `safe_div` with a `None` numerator and a nonzero
denominator raises instead of returning. -/
theorem c2_negative_denominator_counterexample :
    (calc_inflammation_block (some 5) (some (-2)) (some (1 / 2))
        (some 200)).map (fun r => r.nlr) = .ok (some (-(5 / 2))) ∧
      (some (-(5 / 2)) : Option ℚ) ≠ none ∧
      safe_div none (some 1) = .error () := by
  refine ⟨?_, by simp, by norm_num [safe_div]⟩
  norm_num [calc_inflammation_block, mkInflamResult, safe_div, pyMul, truthy,
    siiE, siriE, aisiV, bind, Except.bind, pure, Except.pure, Except.map]

/-- C2 (amended): `safe_div` yields an absent result when the denominator is
absent or zero (performing no division at all, hence raising no exception and
producing no NaN/Infinity there), and for a present numerator and a nonzero
denominator it returns the exact quotient.  Negative denominators are not
treated specially. -/
theorem c2_safe_div_guards (a : Option ℚ) (x y : ℚ) (hy : y ≠ 0) :
    safe_div a none = .ok none ∧ safe_div a (some 0) = .ok none ∧
      safe_div (some x) (some y) = .ok (some (x / y)) := by
  refine ⟨rfl, ?_, ?_⟩
  · simp [safe_div]
  · simp [safe_div, hy]

/-- C2 witness. -/
theorem c2_safe_div_guards_witness :
    (3 : ℚ) ≠ 0 ∧
      (safe_div (some 1) none = .ok none ∧
        safe_div (some 1) (some 0) = .ok none ∧
        safe_div (some 2) (some 3) = .ok (some (2 / 3))) :=
  ⟨by norm_num, c2_safe_div_guards (some 1) 2 3 (by norm_num)⟩

/-- C3 counterexample: with HDL `0` both endothelial members are absent, the
domain score is `0`, and the label computed from it is `"Near optimal"`,
not `"NA"`. -/
theorem c3_empty_domain_label_counterexample :
    (calc_endothelial_block (some 1) (some 1) (some 0)).map
        (fun r => (endoSevs r, r.endo_score, domain_label r.endo_score)) =
      .ok ([], 0, "Near optimal") ∧ "Near optimal" ≠ "NA" := by
  rw [eval_endo_run0]
  refine ⟨?_, by decide⟩
  simp [Except.map, RE0, endoSevs, domain_label]

/-- C3 (amended): a domain in which no member index is present has score `0`,
but its qualitative label is `"Near optimal"` (obtained by applying
`domain_label` to the `0` score), not `"NA"`; so the absence of data is NOT
visibly distinct from zero risk at the domain level.  (Metabolic never has
zero present members; see C9.) -/
theorem c3_empty_domain_zero_near_optimal
    (nI lI mI pI rdwO pO aO hbO mcvO mE nE hdlE : Option ℚ)
    (rI : InflamResult) (rO : OxidResult) (rE : EndoResult)
    (hI : calc_inflammation_block nI lI mI pI = .ok rI)
    (hO : calc_oxidative_block rdwO pO aO hbO mcvO = .ok rO)
    (hE : calc_endothelial_block mE nE hdlE = .ok rE)
    (eI : inflamSevs rI = []) (eO : oxidSevs rO = []) (eE : endoSevs rE = []) :
    (rI.inflam_score = 0 ∧ domain_label rI.inflam_score = "Near optimal") ∧
      (rO.oxid_score = 0 ∧ domain_label rO.oxid_score = "Near optimal") ∧
      (rE.endo_score = 0 ∧ domain_label rE.endo_score = "Near optimal") := by
  obtain ⟨a1, b1, c1, d1, e1, rfl⟩ := calcI_ok hI
  obtain ⟨a2, b2, c2, d2, e2, rfl⟩ := calcO_ok hO
  obtain ⟨a3, b3, rfl⟩ := calcE_ok hE
  have h1 := mkInflam_empty_score a1 b1 c1 d1 e1 eI
  have h2 := mkOxid_empty_score rdwO a2 b2 c2 d2 e2 eO
  have h3 := mkEndo_empty_score a3 b3 eE
  rw [h1, h2, h3]
  exact ⟨⟨rfl, domain_label_zero⟩, ⟨rfl, domain_label_zero⟩,
    ⟨rfl, domain_label_zero⟩⟩

/-- C3 witness. -/
theorem c3_empty_domain_zero_near_optimal_witness :
    calc_inflammation_block (some 1) (some 0) none (some 1) = .ok RI0 ∧
      calc_oxidative_block none (some 0) (some 0) (some 0) (some 1) =
        .ok RO0 ∧
      calc_endothelial_block (some 1) (some 1) (some 0) = .ok RE0 ∧
      inflamSevs RI0 = [] ∧ oxidSevs RO0 = [] ∧ endoSevs RE0 = [] ∧
      ((RI0.inflam_score = 0 ∧
          domain_label RI0.inflam_score = "Near optimal") ∧
        (RO0.oxid_score = 0 ∧ domain_label RO0.oxid_score = "Near optimal") ∧
        (RE0.endo_score = 0 ∧ domain_label RE0.endo_score = "Near optimal")) :=
  ⟨eval_inflam_run0, eval_oxid_run0, eval_endo_run0,
    by simp [inflamSevs, RI0], by simp [oxidSevs, RO0], by simp [endoSevs, RE0],
    c3_empty_domain_zero_near_optimal _ _ _ _ _ _ _ _ _ _ _ _ _ _ _
      eval_inflam_run0 eval_oxid_run0 eval_endo_run0
      (by simp [inflamSevs, RI0]) (by simp [oxidSevs, RO0])
      (by simp [endoSevs, RE0])⟩

theorem mkInflam_formula (a b c d e : Option ℚ)
    (hne : inflamSevs (mkInflamResult a b c d e) ≠ []) :
    (mkInflamResult a b c d e).inflam_score =
      pyRound0 (25 *
        (((inflamSevs (mkInflamResult a b c d e)).sum : ℚ) /
          (((inflamSevs (mkInflamResult a b c d e)).length : ℚ) * 3))) := by
  simp only [inflamSevs, mkInflamResult] at hne ⊢
  rw [if_neg hne, div_div]

theorem mkOxid_formula (a b c d e f : Option ℚ)
    (hne : oxidSevs (mkOxidResult a b c d e f) ≠ []) :
    (mkOxidResult a b c d e f).oxid_score =
      pyRound0 (25 *
        (((oxidSevs (mkOxidResult a b c d e f)).sum : ℚ) /
          (((oxidSevs (mkOxidResult a b c d e f)).length : ℚ) * 3))) := by
  simp only [oxidSevs, mkOxidResult] at hne ⊢
  rw [if_neg hne, div_div]

theorem mkEndo_formula (a b : Option ℚ)
    (hne : endoSevs (mkEndoResult a b) ≠ []) :
    (mkEndoResult a b).endo_score =
      pyRound0 (25 *
        (((endoSevs (mkEndoResult a b)).sum : ℚ) /
          (((endoSevs (mkEndoResult a b)).length : ℚ) * 3))) := by
  simp only [endoSevs, mkEndoResult] at hne ⊢
  rw [if_neg hne, div_div]

theorem mkMetab_formula (a b c d e : Option ℝ) (g : ℝ)
    (hne : metabSevs (mkMetabResult a b c d e g) ≠ []) :
    (mkMetabResult a b c d e g).metab_score =
      pyRound0 (25 *
        (((metabSevs (mkMetabResult a b c d e g)).sum : ℚ) /
          (((metabSevs (mkMetabResult a b c d e g)).length : ℚ) * 3))) := by
  simp only [metabSevs, mkMetabResult] at hne ⊢
  rw [if_neg hne, div_div]

/-- C4 counterexample: with neut 5, lymph 2, mono 0.1, plate 100 the present
severities are `[1, 0, 0, 0, 0]`, so the claimed one-decimal rounding of
`sum/(count*3)*25 = 5/3` would give `1.7`, while the code's inflammation
score is `2`. -/
theorem c4_one_decimal_counterexample :
    (calc_inflammation_block (some 5) (some 2) (some (1 / 10))
        (some 100)).map (fun r => r.inflam_score) = .ok 2 ∧
      specRound1 (25 * ((1 : ℚ) / (5 * 3))) = 17 / 10 ∧
      (2 : ℚ) ≠ 17 / 10 := by
  refine ⟨?_, by norm_num [specRound1, pyRound0], by norm_num⟩
  rw [eval_inflam_run1]
  simp [Except.map, RI1]

/-- C4 (amended): for every domain with at least one present member, the
domain score equals `sum(ordinals) / (presentCount * 3) * 25` rounded to ZERO
decimal places (nearest integer, ties to even) - not to one decimal place. -/
theorem c4_domain_score_formula
    (nI lI mI pI rdwO pO aO hbO mcvO mE nE hdlE : Option ℚ)
    (age : Option ℝ) (sex : String) (dia : ℤ)
    (glu tg hdl ast alt hba1c waist bmi : Option ℝ) (htn : Bool)
    (pM : Option ℝ)
    (rI : InflamResult) (rO : OxidResult) (rE : EndoResult) (rM : MetabResult)
    (hI : calc_inflammation_block nI lI mI pI = .ok rI)
    (hO : calc_oxidative_block rdwO pO aO hbO mcvO = .ok rO)
    (hE : calc_endothelial_block mE nE hdlE = .ok rE)
    (hM : calc_metabolic_block age sex dia glu tg hdl ast alt hba1c waist bmi
      htn pM = .ok rM)
    (neI : 0 < (inflamSevs rI).length) (neO : 0 < (oxidSevs rO).length)
    (neE : 0 < (endoSevs rE).length) (neM : 0 < (metabSevs rM).length) :
    rI.inflam_score =
        pyRound0 (25 * (((inflamSevs rI).sum : ℚ) /
          (((inflamSevs rI).length : ℚ) * 3))) ∧
      rO.oxid_score =
        pyRound0 (25 * (((oxidSevs rO).sum : ℚ) /
          (((oxidSevs rO).length : ℚ) * 3))) ∧
      rE.endo_score =
        pyRound0 (25 * (((endoSevs rE).sum : ℚ) /
          (((endoSevs rE).length : ℚ) * 3))) ∧
      rM.metab_score =
        pyRound0 (25 * (((metabSevs rM).sum : ℚ) /
          (((metabSevs rM).length : ℚ) * 3))) := by
  obtain ⟨a1, b1, c1, d1, e1, rfl⟩ := calcI_ok hI
  obtain ⟨a2, b2, c2, d2, e2, rfl⟩ := calcO_ok hO
  obtain ⟨a3, b3, rfl⟩ := calcE_ok hE
  obtain ⟨a4, b4, c4, d4, e4, g4, rfl, -⟩ := calcM_ok hM
  exact ⟨mkInflam_formula _ _ _ _ _ (List.length_pos.mp neI),
    mkOxid_formula _ _ _ _ _ _ (List.length_pos.mp neO),
    mkEndo_formula _ _ (List.length_pos.mp neE),
    mkMetab_formula _ _ _ _ _ _ (List.length_pos.mp neM)⟩

/-- C4 witness. -/
theorem c4_domain_score_formula_witness :
    calc_inflammation_block (some 5) (some 2) (some (1 / 10)) (some 100) =
        .ok RI1 ∧
      calc_oxidative_block (some 13) (some 200) (some (17 / 5)) (some 13)
          (some 96) = .ok RO1 ∧
      calc_endothelial_block (some (1 / 2)) (some 5) (some 33) = .ok RE1 ∧
      calc_metabolic_block (some 40) "M" 0 (some 0) (some 0) (some 0) (some 0)
          (some 0) (some 8) (some 100) (some 26) true (some 200) = .ok RM1 ∧
      0 < (inflamSevs RI1).length ∧ 0 < (oxidSevs RO1).length ∧
      0 < (endoSevs RE1).length ∧ 0 < (metabSevs RM1).length ∧
      (RI1.inflam_score =
          pyRound0 (25 * (((inflamSevs RI1).sum : ℚ) /
            (((inflamSevs RI1).length : ℚ) * 3))) ∧
        RO1.oxid_score =
          pyRound0 (25 * (((oxidSevs RO1).sum : ℚ) /
            (((oxidSevs RO1).length : ℚ) * 3))) ∧
        RE1.endo_score =
          pyRound0 (25 * (((endoSevs RE1).sum : ℚ) /
            (((endoSevs RE1).length : ℚ) * 3))) ∧
        RM1.metab_score =
          pyRound0 (25 * (((metabSevs RM1).sum : ℚ) /
            (((metabSevs RM1).length : ℚ) * 3)))) :=
  ⟨eval_inflam_run1, eval_oxid_run1, eval_endo_run1, eval_metab_run1,
    by simp [inflamSevs, RI1], by simp [oxidSevs, RO1],
    by simp [endoSevs, RE1], by simp [metabSevs, RM1],
    c4_domain_score_formula _ _ _ _ _ _ _ _ _ _ _ _ _ _ _ _ _ _ _ _ _ _ _ _ _
      _ _ _ _ eval_inflam_run1 eval_oxid_run1 eval_endo_run1 eval_metab_run1
      (by simp [inflamSevs, RI1]) (by simp [oxidSevs, RO1])
      (by simp [endoSevs, RE1]) (by simp [metabSevs, RM1])⟩

/-- C5: every domain score lies in `[0, 25]`, and the total score (the sum of
the four domain scores, as computed in `main`) lies in `[0, 100]`; in
particular this holds whenever all four domains have at least one present
member. -/
theorem c5_scores_and_total_bounded
    (nI lI mI pI rdwO pO aO hbO mcvO mE nE hdlE : Option ℚ)
    (age : Option ℝ) (sex : String) (dia : ℤ)
    (glu tg hdl ast alt hba1c waist bmi : Option ℝ) (htn : Bool)
    (pM : Option ℝ)
    (rI : InflamResult) (rO : OxidResult) (rE : EndoResult) (rM : MetabResult)
    (hI : calc_inflammation_block nI lI mI pI = .ok rI)
    (hO : calc_oxidative_block rdwO pO aO hbO mcvO = .ok rO)
    (hE : calc_endothelial_block mE nE hdlE = .ok rE)
    (hM : calc_metabolic_block age sex dia glu tg hdl ast alt hba1c waist bmi
      htn pM = .ok rM) :
    (0 ≤ rI.inflam_score ∧ rI.inflam_score ≤ 25) ∧
      (0 ≤ rO.oxid_score ∧ rO.oxid_score ≤ 25) ∧
      (0 ≤ rE.endo_score ∧ rE.endo_score ≤ 25) ∧
      (0 ≤ rM.metab_score ∧ rM.metab_score ≤ 25) ∧
      (0 ≤ total_score rI rO rE rM ∧ total_score rI rO rE rM ≤ 100) := by
  obtain ⟨a1, b1, c1, d1, e1, rfl⟩ := calcI_ok hI
  obtain ⟨a2, b2, c2, d2, e2, rfl⟩ := calcO_ok hO
  obtain ⟨a3, b3, rfl⟩ := calcE_ok hE
  obtain ⟨a4, b4, c4, d4, e4, g4, rfl, -⟩ := calcM_ok hM
  obtain ⟨i0, i25⟩ := mkInflam_score_bounds a1 b1 c1 d1 e1
  obtain ⟨o0, o25⟩ := mkOxid_score_bounds rdwO a2 b2 c2 d2 e2
  obtain ⟨e0, e25⟩ := mkEndo_score_bounds a3 b3
  obtain ⟨m0, m25⟩ := mkMetab_score_bounds a4 b4 c4 d4 e4 g4
  refine ⟨⟨i0, i25⟩, ⟨o0, o25⟩, ⟨e0, e25⟩, ⟨m0, m25⟩, ?_, ?_⟩ <;>
    simp only [total_score] <;> linarith

/-- C5 witness. -/
theorem c5_scores_and_total_bounded_witness :
    calc_inflammation_block (some 5) (some 2) (some (1 / 10)) (some 100) =
        .ok RI1 ∧
      calc_oxidative_block (some 13) (some 200) (some (17 / 5)) (some 13)
          (some 96) = .ok RO1 ∧
      calc_endothelial_block (some (1 / 2)) (some 5) (some 33) = .ok RE1 ∧
      calc_metabolic_block (some 40) "M" 0 (some 0) (some 0) (some 0) (some 0)
          (some 0) (some 8) (some 100) (some 26) true (some 200) = .ok RM1 ∧
      ((0 ≤ RI1.inflam_score ∧ RI1.inflam_score ≤ 25) ∧
        (0 ≤ RO1.oxid_score ∧ RO1.oxid_score ≤ 25) ∧
        (0 ≤ RE1.endo_score ∧ RE1.endo_score ≤ 25) ∧
        (0 ≤ RM1.metab_score ∧ RM1.metab_score ≤ 25) ∧
        (0 ≤ total_score RI1 RO1 RE1 RM1 ∧
          total_score RI1 RO1 RE1 RM1 ≤ 100)) :=
  ⟨eval_inflam_run1, eval_oxid_run1, eval_endo_run1, eval_metab_run1,
    c5_scores_and_total_bounded _ _ _ _ _ _ _ _ _ _ _ _ _ _ _ _ _ _ _ _ _ _ _
      _ _ _ _ _ _ eval_inflam_run1 eval_oxid_run1 eval_endo_run1
      eval_metab_run1⟩

theorem sev_nlr_val_mono {x y : ℚ} (hxy : x ≤ y) :
    sev_nlr_val x ≤ sev_nlr_val y := by
  simp only [sev_nlr_val]
  split_ifs <;> try norm_num
  all_goals exfalso
  all_goals linarith

theorem sev_plr_val_mono {x y : ℚ} (hxy : x ≤ y) :
    sev_plr_val x ≤ sev_plr_val y := by
  simp only [sev_plr_val]
  split_ifs <;> try norm_num
  all_goals exfalso
  all_goals linarith

theorem sev_sii_val_mono {x y : ℚ} (hxy : x ≤ y) :
    sev_sii_val x ≤ sev_sii_val y := by
  simp only [sev_sii_val]
  split_ifs <;> try norm_num
  all_goals exfalso
  all_goals linarith

theorem sev_siri_val_mono {x y : ℚ} (hxy : x ≤ y) :
    sev_siri_val x ≤ sev_siri_val y := by
  simp only [sev_siri_val]
  split_ifs <;> try norm_num
  all_goals exfalso
  all_goals linarith

theorem sev_aisi_val_mono {x y : ℚ} (hxy : x ≤ y) :
    sev_aisi_val x ≤ sev_aisi_val y := by
  simp only [sev_aisi_val]
  split_ifs <;> try norm_num
  all_goals exfalso
  all_goals linarith

theorem sev_rdw_val_mono {x y : ℚ} (hxy : x ≤ y) :
    sev_rdw_val x ≤ sev_rdw_val y := by
  simp only [sev_rdw_val]
  split_ifs <;> try norm_num
  all_goals exfalso
  all_goals linarith

theorem sev_rpr_val_mono {x y : ℚ} (hxy : x ≤ y) :
    sev_rpr_val x ≤ sev_rpr_val y := by
  simp only [sev_rpr_val]
  split_ifs <;> try norm_num
  all_goals exfalso
  all_goals linarith

theorem sev_rar_val_mono {x y : ℚ} (hxy : x ≤ y) :
    sev_rar_val x ≤ sev_rar_val y := by
  simp only [sev_rar_val]
  split_ifs <;> try norm_num
  all_goals exfalso
  all_goals linarith

theorem sev_mcvhb_val_mono {x y : ℚ} (hxy : x ≤ y) :
    sev_mcvhb_val x ≤ sev_mcvhb_val y := by
  simp only [sev_mcvhb_val]
  split_ifs <;> try norm_num
  all_goals exfalso
  all_goals linarith

theorem sev_hpr_val_mono {x y : ℚ} (hxy : x ≤ y) :
    sev_hpr_val x ≤ sev_hpr_val y := by
  simp only [sev_hpr_val]
  split_ifs <;> try norm_num
  all_goals exfalso
  all_goals linarith

theorem sev_mhr_val_mono {x y : ℚ} (hxy : x ≤ y) :
    sev_mhr_val x ≤ sev_mhr_val y := by
  simp only [sev_mhr_val]
  split_ifs <;> try norm_num
  all_goals exfalso
  all_goals linarith

theorem sev_nhr_val_mono {x y : ℚ} (hxy : x ≤ y) :
    sev_nhr_val x ≤ sev_nhr_val y := by
  simp only [sev_nhr_val]
  split_ifs <;> try norm_num
  all_goals exfalso
  all_goals linarith

theorem sev_tyg_val_mono {x y : ℝ} (hxy : x ≤ y) :
    sev_tyg_val x ≤ sev_tyg_val y := by
  simp only [sev_tyg_val]
  split_ifs <;> try norm_num
  all_goals exfalso
  all_goals linarith

theorem sev_mets_val_mono {x y : ℝ} (hxy : x ≤ y) :
    sev_mets_val x ≤ sev_mets_val y := by
  simp only [sev_mets_val]
  split_ifs <;> try norm_num
  all_goals exfalso
  all_goals linarith

theorem sev_aip_val_mono {x y : ℝ} (hxy : x ≤ y) :
    sev_aip_val x ≤ sev_aip_val y := by
  simp only [sev_aip_val]
  split_ifs <;> try norm_num
  all_goals exfalso
  all_goals linarith

theorem sev_hsi_val_mono {x y : ℝ} (hxy : x ≤ y) :
    sev_hsi_val x ≤ sev_hsi_val y := by
  simp only [sev_hsi_val]
  split_ifs <;> try norm_num
  all_goals exfalso
  all_goals linarith

theorem sev_fib4_val_mono {x y : ℝ} (hxy : x ≤ y) :
    sev_fib4_val x ≤ sev_fib4_val y := by
  simp only [sev_fib4_val]
  split_ifs <;> try norm_num
  all_goals exfalso
  all_goals linarith

/-- C6: for every higher-is-worse index classified against its ascending
cutoff table (NLR, PLR, SII, SIRI, AISI, RDW, RPR, RAR, MCV/Hb, HPR, MHR,
NHR, TyG, METS-IR, AIP, HSI, FIB-4), the severity ordinal assigned to a
present value is a non-decreasing function of the raw value. -/
theorem c6_ascending_tables_monotone (x y : ℚ) (r s : ℝ) (hxy : x ≤ y)
    (hrs : r ≤ s) :
    sev_nlr_val x ≤ sev_nlr_val y ∧ sev_plr_val x ≤ sev_plr_val y ∧
      sev_sii_val x ≤ sev_sii_val y ∧ sev_siri_val x ≤ sev_siri_val y ∧
      sev_aisi_val x ≤ sev_aisi_val y ∧ sev_rdw_val x ≤ sev_rdw_val y ∧
      sev_rpr_val x ≤ sev_rpr_val y ∧ sev_rar_val x ≤ sev_rar_val y ∧
      sev_mcvhb_val x ≤ sev_mcvhb_val y ∧ sev_hpr_val x ≤ sev_hpr_val y ∧
      sev_mhr_val x ≤ sev_mhr_val y ∧ sev_nhr_val x ≤ sev_nhr_val y ∧
      sev_tyg_val r ≤ sev_tyg_val s ∧ sev_mets_val r ≤ sev_mets_val s ∧
      sev_aip_val r ≤ sev_aip_val s ∧ sev_hsi_val r ≤ sev_hsi_val s ∧
      sev_fib4_val r ≤ sev_fib4_val s := by
  exact ⟨sev_nlr_val_mono hxy, sev_plr_val_mono hxy, sev_sii_val_mono hxy,
    sev_siri_val_mono hxy, sev_aisi_val_mono hxy, sev_rdw_val_mono hxy,
    sev_rpr_val_mono hxy, sev_rar_val_mono hxy, sev_mcvhb_val_mono hxy,
    sev_hpr_val_mono hxy, sev_mhr_val_mono hxy, sev_nhr_val_mono hxy,
    sev_tyg_val_mono hrs, sev_mets_val_mono hrs, sev_aip_val_mono hrs,
    sev_hsi_val_mono hrs, sev_fib4_val_mono hrs⟩

/-- C6 witness. -/
theorem c6_ascending_tables_monotone_witness :
    (1 : ℚ) ≤ 2 ∧ (1 : ℝ) ≤ 2 ∧
      (sev_nlr_val 1 ≤ sev_nlr_val 2 ∧ sev_plr_val 1 ≤ sev_plr_val 2 ∧
        sev_sii_val 1 ≤ sev_sii_val 2 ∧ sev_siri_val 1 ≤ sev_siri_val 2 ∧
        sev_aisi_val 1 ≤ sev_aisi_val 2 ∧ sev_rdw_val 1 ≤ sev_rdw_val 2 ∧
        sev_rpr_val 1 ≤ sev_rpr_val 2 ∧ sev_rar_val 1 ≤ sev_rar_val 2 ∧
        sev_mcvhb_val 1 ≤ sev_mcvhb_val 2 ∧ sev_hpr_val 1 ≤ sev_hpr_val 2 ∧
        sev_mhr_val 1 ≤ sev_mhr_val 2 ∧ sev_nhr_val 1 ≤ sev_nhr_val 2 ∧
        sev_tyg_val 1 ≤ sev_tyg_val 2 ∧ sev_mets_val 1 ≤ sev_mets_val 2 ∧
        sev_aip_val 1 ≤ sev_aip_val 2 ∧ sev_hsi_val 1 ≤ sev_hsi_val 2 ∧
        sev_fib4_val 1 ≤ sev_fib4_val 2) :=
  ⟨by norm_num, by norm_num,
    c6_ascending_tables_monotone 1 2 1 2 (by norm_num) (by norm_num)⟩

/-- C7: with absolute neutrophils 5.0 and absolute lymphocytes 2.0 (and any
numeric monocytes and platelets) the computed NLR is `5/2 = 2.5`, which lies
in the interval `(2, 3]` and is classified with severity ordinal `1`
("Mild"). -/
theorem c7_nlr_example_mild (m p : ℚ) :
    (calc_inflammation_block (some 5) (some 2) (some m) (some p)).map
        (fun r => (r.nlr, r.s_nlr)) = .ok (some (5 / 2), some 1) ∧
      (2 : ℚ) < 5 / 2 ∧ (5 / 2 : ℚ) ≤ 3 := by
  refine ⟨?_, by norm_num, by norm_num⟩
  norm_num [calc_inflammation_block, mkInflamResult, safe_div, pyMul, truthy,
    siiE, siriE, aisiV, bind, Except.bind, pure, Except.pure, Except.map,
    sev_nlr, sev_nlr_val]

/-- C10: the AIP classifier maps an absent value to `None` and a present
value only to the ordinals `0`, `1` or `3` - ordinal `2` ("Moderate") is
unreachable for AIP - while every other classifier of the engine does reach
ordinal `2` at some input. -/
theorem c10_aip_skips_moderate (x : ℝ) :
    sev_aip none = none ∧
      (sev_aip_val x = 0 ∨ sev_aip_val x = 1 ∨ sev_aip_val x = 3) ∧
      sev_nlr_val 4 = 2 ∧ sev_plr_val 160 = 2 ∧ sev_sii_val 700 = 2 ∧
      sev_siri_val 2 = 2 ∧ sev_aisi_val 400 = 2 ∧ sev_rdw_val (29 / 2) = 2 ∧
      sev_rpr_val (12 / 100) = 2 ∧ sev_rar_val (9 / 2) = 2 ∧
      sev_hbrdw_val (11 / 10) = 2 ∧ sev_mcvhb_val (17 / 2) = 2 ∧
      sev_hpr_val (1 / 10) = 2 ∧ sev_mhr_val (1 / 40) = 2 ∧
      sev_nhr_val (1 / 4) = 2 ∧ sev_tyg_val 9 = 2 ∧ sev_mets_val 42 = 2 ∧
      sev_hsi_val 37 = 2 ∧ sev_fib4_val (5 / 2) = 2 ∧ sev_egdr_val 5 = 2 := by
  refine ⟨rfl, ?_, ?_, ?_, ?_, ?_, ?_, ?_, ?_, ?_, ?_, ?_, ?_, ?_, ?_, ?_,
      ?_, ?_, ?_, ?_⟩
  · simp only [sev_aip_val]
    split_ifs <;> norm_num
  all_goals
    norm_num [sev_nlr_val, sev_plr_val, sev_sii_val, sev_siri_val,
      sev_aisi_val, sev_rdw_val, sev_rpr_val, sev_rar_val, sev_hbrdw_val,
      sev_mcvhb_val, sev_hpr_val, sev_mhr_val, sev_nhr_val, sev_tyg_val,
      sev_mets_val, sev_hsi_val, sev_fib4_val, sev_egdr_val]

/-- C1 counterexample: the engine does raise for absent inputs - with
neutrophils `None` the inflammation block raises a `TypeError` inside
`safe_div` - and it can even raise for fully numeric inputs: with
HDL `= 1` the METS-IR formula divides by `log(1) = 0`, a
`ZeroDivisionError`. -/
theorem c1_engine_raises_counterexample :
    calc_inflammation_block none (some 2) (some (1 / 2)) (some 200) =
        .error () ∧
      calc_metabolic_block (some 40) "M" 0 (some 100) (some 150) (some 1)
          (some 30) (some 35) (some 6) (some 90) (some 25) false (some 200) =
        .error () := by
  constructor
  · norm_num [calc_inflammation_block, safe_div, bind, Except.bind]
  · norm_num [calc_metabolic_block, tygE, metsE, bind, Except.bind,
      Real.log_one]

/-- C1 (amended): for fully numeric inputs (with HDL distinct from 1) none of
the four calc blocks raises, and a complete result is produced; an index
whose guard fails is absent and its severity renders as `"NA"`.  Absent
(`None`) inputs, by contrast, can raise a `TypeError` before the division
guards are reached, and HDL `= 1` raises a `ZeroDivisionError` in METS-IR. -/
theorem c1_engine_total_for_numeric_inputs
    (nI lI mI pI rdwO pO aO hbO mcvO mE nE hdlE : ℚ)
    (age : ℝ) (sex : String) (dia : ℤ) (glu tg hdl ast alt hba1c waist bmi : ℝ)
    (htn : Bool) (pM : ℝ) (direction : String) (hne : hdl ≠ 1) :
    exceptOk (calc_inflammation_block (some nI) (some lI) (some mI)
        (some pI)) = true ∧
      exceptOk (calc_oxidative_block (some rdwO) (some pO) (some aO)
        (some hbO) (some mcvO)) = true ∧
      exceptOk (calc_endothelial_block (some mE) (some nE) (some hdlE)) =
        true ∧
      exceptOk (calc_metabolic_block (some age) sex dia (some glu) (some tg)
        (some hdl) (some ast) (some alt) (some hba1c) (some waist) (some bmi)
        htn (some pM)) = true ∧
      severity_to_text none direction = "NA" :=
  ⟨calcI_some_ok nI lI mI pI, calcO_some_ok rdwO pO aO hbO mcvO,
    calcE_some_ok mE nE hdlE,
    calcM_some_ok age sex dia glu tg hdl ast alt hba1c waist bmi htn pM hne,
    rfl⟩

/-- C1 witness. -/
theorem c1_engine_total_for_numeric_inputs_witness :
    (0 : ℝ) ≠ 1 ∧
      (exceptOk (calc_inflammation_block (some 5) (some 2) (some (1 / 2))
          (some 200)) = true ∧
        exceptOk (calc_oxidative_block (some 13) (some 200) (some (17 / 5))
          (some 13) (some 96)) = true ∧
        exceptOk (calc_endothelial_block (some (1 / 2)) (some 5) (some 33)) =
          true ∧
        exceptOk (calc_metabolic_block (some 40) "M" 0 (some 120) (some 200)
          (some 0) (some 33) (some 40) (some 6) (some 88) (some 26) false
          (some 200)) = true ∧
        severity_to_text none "up" = "NA") :=
  ⟨by norm_num,
    c1_engine_total_for_numeric_inputs 5 2 (1 / 2) 200 13 200 (17 / 5) 13 96
      (1 / 2) 5 33 40 "M" 0 120 200 0 33 40 6 88 26 false 200 "up"
      (by norm_num)⟩

/-- C9: whenever the metabolic block returns a result (in particular for
every numeric waist, HbA1c and hypertension flag), the eGDR index is present
and equal to `21.158 - 0.09*waist - 3.407*htn - 0.551*hba1c`, its severity is
the classification of that value, the metabolic severity list is nonempty,
and the aggregate severity is computed by the nonempty-list branch
`sum/len`, never the zero-present-members branch. -/
theorem c9_egdr_always_present (age : Option ℝ) (sex : String) (dia : ℤ)
    (glu tg hdl ast alt : Option ℝ) (hba1c waist : ℝ) (bmi : Option ℝ)
    (htn : Bool) (pM : Option ℝ) (r : MetabResult)
    (h : calc_metabolic_block age sex dia glu tg hdl ast alt (some hba1c)
      (some waist) bmi htn pM = .ok r) :
    r.egdr = 21.158 - 0.09 * waist - 3.407 * (if htn then 1 else 0) -
        0.551 * hba1c ∧
      r.s_egdr = some (sev_egdr_val r.egdr) ∧
      0 < (metabSevs r).length ∧
      r.metab_sev = ((metabSevs r).sum : ℚ) / ((metabSevs r).length : ℚ) := by
  obtain ⟨a, b, c, d, e, g, rfl, hg⟩ := calcM_ok h
  have hgv : g = 21.158 - 0.09 * waist - 3.407 * (if htn then 1 else 0) -
      0.551 * hba1c := by
    simp only [egdrE] at hg
    exact (Except.ok.inj hg).symm
  have hmem : sev_egdr_val g ∈ metabSevs (mkMetabResult a b c d e g) := by
    simp only [metabSevs, mkMetabResult, List.mem_filterMap]
    exact ⟨some (sev_egdr_val g), by simp [sev_egdr], rfl⟩
  have hne : metabSevs (mkMetabResult a b c d e g) ≠ [] :=
    List.ne_nil_of_mem hmem
  refine ⟨?_, ?_, List.length_pos.mpr hne, ?_⟩
  · simpa [mkMetabResult] using hgv
  · simp [mkMetabResult, sev_egdr]
  · simp only [metabSevs, mkMetabResult] at hne ⊢
    rw [if_neg hne]

/-- C9 witness. -/
theorem c9_egdr_always_present_witness :
    calc_metabolic_block (some 40) "M" 0 (some 0) (some 0) (some 0) (some 0)
        (some 0) (some 8) (some 100) (some 26) true (some 200) = .ok RM1 ∧
      (RM1.egdr = 21.158 - 0.09 * 100 - 3.407 * (if true then 1 else 0) -
          0.551 * 8 ∧
        RM1.s_egdr = some (sev_egdr_val RM1.egdr) ∧
        0 < (metabSevs RM1).length ∧
        RM1.metab_sev = ((metabSevs RM1).sum : ℚ) /
          ((metabSevs RM1).length : ℚ)) :=
  ⟨eval_metab_run1,
    c9_egdr_always_present (some 40) "M" 0 (some 0) (some 0) (some 0) (some 0)
      (some 0) 8 100 (some 26) true (some 200) RM1 eval_metab_run1⟩

/-- C8: with triglycerides 180 mg/dL and fasting glucose 110 mg/dL the TyG
computation yields `ln(110*180/2) = ln(9900)`, which lies in the interval
`(9, 9.5]` and is classified by `sev_tyg` as moderate severity (ordinal
`2`). -/
theorem c8_tyg_example_moderate :
    tygE (some 110) (some 180) = .ok (some (Real.log 9900)) ∧
      (9 : ℝ) < Real.log 9900 ∧ Real.log 9900 ≤ 9.5 ∧
      sev_tyg (some (Real.log 9900)) = some 2 := by
  have hexp9 : Real.exp 9 < 9900 := by
    have h1 : Real.exp 9 = Real.exp 1 ^ 9 := by
      rw [Real.exp_one_pow]
      norm_num
    have h2 : Real.exp 1 ^ 9 < 2.7182818286 ^ 9 :=
      pow_lt_pow_left Real.exp_one_lt_d9 (Real.exp_pos 1).le (by norm_num)
    have h3 : (2.7182818286 : ℝ) ^ 9 < 9900 := by norm_num
    linarith
  have hexp95 : (9900 : ℝ) < Real.exp 9.5 := by
    have ha : (2.7182818283 : ℝ) ^ 19 < Real.exp 1 ^ 19 :=
      pow_lt_pow_left Real.exp_one_gt_d9 (by norm_num) (by norm_num)
    have hb : Real.exp 1 ^ 19 = Real.exp 19 := by
      rw [Real.exp_one_pow]
      norm_num
    have hc : Real.exp 19 = Real.exp 9.5 * Real.exp 9.5 := by
      rw [← Real.exp_add]
      norm_num
    have hd : (98010000 : ℝ) < 2.7182818283 ^ 19 := by norm_num
    by_contra hle
    push_neg at hle
    have h1 : Real.exp 9.5 * Real.exp 9.5 ≤ 9900 * 9900 :=
      mul_le_mul hle hle (Real.exp_pos 9.5).le (by norm_num)
    have h2 : (9900 : ℝ) * 9900 = 98010000 := by norm_num
    linarith
  have hlog1 : (9 : ℝ) < Real.log 9900 :=
    (Real.lt_log_iff_exp_lt (by norm_num)).mpr hexp9
  have hlog2 : Real.log 9900 < 9.5 :=
    (Real.log_lt_iff_lt_exp (by norm_num)).mpr hexp95
  refine ⟨?_, hlog1, hlog2.le, ?_⟩
  · simp only [tygE]
    norm_num
  · simp only [sev_tyg, Option.map_some', sev_tyg_val]
    rw [if_neg (by norm_num; linarith), if_neg (by norm_num; linarith),
      if_pos hlog2]

/-- C7 witness. -/
theorem c7_nlr_example_mild_witness :
    (calc_inflammation_block (some 5) (some 2) (some (1 / 2)) (some 200)).map
        (fun r => (r.nlr, r.s_nlr)) = .ok (some (5 / 2), some 1) ∧
      (2 : ℚ) < 5 / 2 ∧ (5 / 2 : ℚ) ≤ 3 :=
  c7_nlr_example_mild (1 / 2) 200

/-- C10 witness. -/
theorem c10_aip_skips_moderate_witness :
    sev_aip none = none ∧
      (sev_aip_val 0 = 0 ∨ sev_aip_val 0 = 1 ∨ sev_aip_val 0 = 3) ∧
      sev_nlr_val 4 = 2 ∧ sev_plr_val 160 = 2 ∧ sev_sii_val 700 = 2 ∧
      sev_siri_val 2 = 2 ∧ sev_aisi_val 400 = 2 ∧ sev_rdw_val (29 / 2) = 2 ∧
      sev_rpr_val (12 / 100) = 2 ∧ sev_rar_val (9 / 2) = 2 ∧
      sev_hbrdw_val (11 / 10) = 2 ∧ sev_mcvhb_val (17 / 2) = 2 ∧
      sev_hpr_val (1 / 10) = 2 ∧ sev_mhr_val (1 / 40) = 2 ∧
      sev_nhr_val (1 / 4) = 2 ∧ sev_tyg_val 9 = 2 ∧ sev_mets_val 42 = 2 ∧
      sev_hsi_val 37 = 2 ∧ sev_fib4_val (5 / 2) = 2 ∧ sev_egdr_val 5 = 2 :=
  c10_aip_skips_moderate 0

end DiaWell
